import Mathlib

/-!
Shallow embedding of the node-ocr repository's credential/token/pipeline/batch
layer (src/server.js and src/services/directApiOcrService.js), together with
theorems settling the frozen claims about it.

External I/O (the Google auth, Drive upload, export and delete endpoints, and
the filesystem) is modelled by oracle values describing the outcome the remote
side produced for each call; all control flow, error formatting, result
construction and cache logic are translated directly from the JavaScript
source.
-/

namespace NodeOcr

/-- JS truthiness of a possibly-absent string: `undefined`/`null` and the empty
string are falsy, every other string is truthy. -/
def truthyS : Option String → Bool
  | none => false
  | some s => s ≠ ""

/-- JS `v || dflt` for a possibly-absent string `v`. -/
def jsOr (v : Option String) (dflt : String) : String :=
  match v with
  | none => dflt
  | some s => if s = "" then dflt else s

/-- Characters of the base64 alphabets accepted by Node's lenient
`Buffer.from(s, "base64")` decoder (standard and URL-safe). -/
def isB64Char (c : Char) : Bool :=
  c.isAlphanum || c = '+' || c = '/' || c = '-' || c = '_'

/-- Number of base64 alphabet characters in a string. -/
def b64CharCount (s : String) : Nat :=
  (s.data.filter isB64Char).length

/-- Byte length of `Buffer.from(s, "base64")`: Node's decoder ignores
characters outside the base64 alphabet ('=' padding and junk contribute no
output bytes) and never throws, so the decoded length is determined by the
count of alphabet characters alone. -/
def b64DecodedLen (s : String) : Nat :=
  b64CharCount s * 3 / 4

/-- Strip `p` from the front of `l`, or fail. -/
def stripPrefixL : List Char → List Char → Option (List Char)
  | [], l => some l
  | _ :: _, [] => none
  | p :: ps, c :: cs => if c = p then stripPrefixL ps cs else none

/-- JS `s.startsWith(p)`. -/
def jsStartsWith (s p : String) : Bool :=
  (stripPrefixL p.data s.data).isSome

/-- JS `s.endsWith(p)`. -/
def jsEndsWith (s p : String) : Bool :=
  (stripPrefixL p.data.reverse s.data.reverse).isSome

/-- JS `\w` character class: ASCII letters, digits and underscore. -/
def isJsWordChar (c : Char) : Bool :=
  c.isAlphanum || c = '_'

/-- JS `.` (without the `s` flag): any character except the four line
terminators. -/
def isJsDotChar (c : Char) : Bool :=
  !(c = '\n' || c = '\r' || c = Char.ofNat 0x2028 || c = Char.ofNat 0x2029)

/-- Matcher for the data-URI regex from src/server.js line 127,
`^data:(image\/\w+|application\/pdf);base64,(.*)$`, on the character list of
the subject; yields the captured MIME type and payload on a match. -/
def parseDataUriChars (l : List Char) : Option (String × List Char) :=
  match stripPrefixL "data:".data l with
  | none => none
  | some rest =>
    match stripPrefixL "image/".data rest with
    | some r1 =>
      let w := r1.takeWhile isJsWordChar
      let r2 := r1.drop w.length
      if w = [] then none
      else
        match stripPrefixL ";base64,".data r2 with
        | some payload =>
          if payload.all isJsDotChar then some ("image/" ++ String.mk w, payload) else none
        | none => none
    | none =>
      match stripPrefixL "application/pdf;base64,".data rest with
      | some payload =>
        if payload.all isJsDotChar then some ("application/pdf", payload) else none
      | none => none

/-- String-level wrapper for the data-URI matcher. -/
def parseDataUri (s : String) : Option (String × String) :=
  (parseDataUriChars s.data).map (fun mp => (mp.1, String.mk mp.2))

/-- Models src/server.js lines 124-153: extract the decoded payload length and
MIME type from the `imageBase64` field.  A string not starting with `data:` is
treated as raw base64 with the default MIME type (Node's base64 decoding never
throws, so the `catch` on that branch is unreachable); a `data:` string must
match the image-or-PDF pattern or the item is rejected. -/
def decodePayload (imageBase64 : String) : Except String (Nat × String) :=
  if jsStartsWith imageBase64 "data:" then
    match parseDataUri imageBase64 with
    | some mp => .ok (b64DecodedLen mp.2, mp.1)
    | none => .error "Invalid base64 image format."
  else
    .ok (b64DecodedLen imageBase64, "application/octet-stream")

/-- Decimal digit character for `d < 10`. -/
def decDigitChar (d : Nat) : Char := Char.ofNat (48 + d)

/-- Accumulate the decimal digits of `n` (most significant first) in front of
`acc`; structural recursion on a fuel argument (`fuel ≥ n` suffices since the
value shrinks by a factor of ten each step). -/
def decDigitsCore : Nat → Nat → List Char → List Char
  | 0, _, acc => acc
  | fuel + 1, n, acc =>
    if n = 0 then acc else decDigitsCore fuel (n / 10) (decDigitChar (n % 10) :: acc)

/-- Decimal rendering of a natural number, as JS renders integral numbers in
template strings. -/
def decRepr (n : Nat) : String :=
  if n = 0 then "0" else String.mk (decDigitsCore n n [])

/-- A parsed service-account identity record (the fields the embedded code
reads). -/
structure Credentials where
  client_email : String
  private_key : String
deriving DecidableEq

/-- Scope claimed in the signed assertion (directApiOcrService.js line 157). -/
def driveScope : String := "https://www.googleapis.com/auth/drive"

/-- Audience of the signed assertion (directApiOcrService.js line 158). -/
def tokenAud : String := "https://oauth2.googleapis.com/token"

/-- Claims of the signed assertion built by `generateJWT`
(directApiOcrService.js lines 152-161). -/
structure JwtClaims where
  iss : String
  scope : String
  aud : String
  exp : Nat
  iat : Nat
deriving DecidableEq

/-- The claim set `generateJWT` signs: issuer is the identity's principal id,
expiry is one hour after issuance. -/
def jwtClaims (credentials : Credentials) (nowSec : Nat) : JwtClaims :=
  { iss := credentials.client_email
    scope := driveScope
    aud := tokenAud
    exp := nowSec + 3600
    iat := nowSec }

/-- TTL of the token cache in milliseconds (directApiOcrService.js line 73:
45 minutes, tokens expire at 60). -/
def tokenCacheTTLms : Nat := 45 * 60 * 1000

/-- Maximum number of cached tokens (directApiOcrService.js line 72). -/
def tokenCacheMax : Nat := 20

/-- The token cache: principal id, token, and insertion instant (ms). -/
abbrev TokenCache := List (String × String × Nat)

/-- Cache lookup: an entry is served while younger than the TTL. -/
def cacheGet (cache : TokenCache) (key : String) (nowMs : Nat) : Option String :=
  match cache.find? (fun e => e.1 == key) with
  | some e => if nowMs - e.2.2 < tokenCacheTTLms then some e.2.1 else none
  | none => none

/-- Cache insertion, replacing any previous entry for the key. -/
def cacheSet (cache : TokenCache) (key tok : String) (nowMs : Nat) : TokenCache :=
  (key, tok, nowMs) :: cache.filter (fun e => !(e.1 == key))

/-- Outcome of one `getAccessToken` call: the result, the updated cache, and
the number of remote token exchanges performed. -/
structure TokenFetch where
  result : Except String String
  cache : TokenCache
  exchanges : Nat

/-- Models `getAccessToken` (directApiOcrService.js lines 202-248): serve the
cached token for the identity's principal id when present; otherwise build and
sign the assertion, exchange it (outcome supplied by the oracle
`exchangeOutcome`, carrying `access_token` on success), cache the token and
return it.  Any failure is rethrown as a plain `Failed to get access token`
error. -/
def getAccessToken (credentials : Credentials) (cache : TokenCache) (nowMs : Nat)
    (exchangeOutcome : Except String String) : TokenFetch :=
  match cacheGet cache credentials.client_email nowMs with
  | some tok => { result := .ok tok, cache := cache, exchanges := 0 }
  | none =>
    match exchangeOutcome with
    | .ok accessToken =>
      { result := .ok accessToken
        cache := cacheSet cache credentials.client_email accessToken nowMs
        exchanges := 1 }
    | .error e =>
      { result := .error ("Failed to get access token: " ++ e)
        cache := cache
        exchanges := 1 }

/-- The `response` attached to an axios failure: HTTP status, and
`data.error.message` when `response.data` and `response.data.error` are
truthy (`none` otherwise). -/
structure ApiResponseInfo where
  status : Nat
  dataErrorMessage : Option String
deriving DecidableEq

/-- An axios/transport failure as seen by the pipeline's catch block. -/
structure ApiFailure where
  message : String
  response : Option ApiResponseInfo
deriving DecidableEq

/-- Error formatting of the pipeline's catch block (directApiOcrService.js
lines 388-401): axios errors with a response become `API Error (status)`
messages, optionally extended with the remote error detail (JS `||` falls back
to `Unknown API error` on an empty message); plain errors become
`Processing Error` messages. -/
def formatOcrError (e : ApiFailure) : String :=
  match e.response with
  | none => "Processing Error: " ++ e.message
  | some r =>
    let base := "API Error (" ++ decRepr r.status ++ "): " ++ e.message
    match r.dataErrorMessage with
    | none => base
    | some m => base ++ " - " ++ (if m = "" then "Unknown API error" else m)

/-- Oracle for one `performOcr` execution: the outcome each awaited call would
produce if reached, plus the measured phase durations.  `credsResult` is the
outcome of `getRandomCredentials` (credentials and credential number);
`tokenResult` is the outcome of `await getAccessToken(credentials)` against
the shared token cache (its errors are already wrapped as plain
`Failed to get access token` messages); `uploadResult` carries
`uploadResponse.data.id` (`none` when the field is absent); `deleteResult`'s
error carries `deleteError.message`. -/
structure OcrEnv where
  credsResult : Except String (Credentials × String)
  tokenResult : Except String String
  uploadResult : Except ApiFailure (Option String)
  exportResult : Except ApiFailure String
  deleteResult : Except String Unit
  authDur : Nat
  uploadDur : Nat
  exportDur : Nat
  deleteDur : Nat
  totalDur : Nat

/-- The Result record built by `performOcr` (directApiOcrService.js lines
291-300); the timing map is kept in JS object insertion order. -/
structure OcrResult where
  fileName : String
  success : Bool
  text : String
  error : String
  timing : List (String × Nat)
  credentialUsed : String
deriving DecidableEq

/-- One remote Drive/auth call issued by the pipeline.  `authTokenCall` marks
the `getAccessToken` invocation (which performs the token exchange unless the
cache serves it). -/
inductive ApiCall where
  | authTokenCall
  | uploadDoc (docName : String) (mimeType : String)
  | exportDoc (docId : String)
  | deleteDoc (docId : String)
deriving DecidableEq

/-- Characters the safe-filename regex `[^a-zA-Z0-9._-]` keeps unchanged. -/
def isSafeFileChar (c : Char) : Bool :=
  c.isAlphanum || c = '.' || c = '_' || c = '-'

/-- Per-character replacement of `originalFileName.replace(/[^a-zA-Z0-9._-]/g, "_")`. -/
def sanitizeFileName (s : String) : String :=
  String.mk (s.data.map fun c => if isSafeFileChar c then c else '_')

/-- The remote-facing document name (directApiOcrService.js lines 319-321):
fixed prefix, sanitized original name, and the `Date.now()` timestamp. -/
def safeFileName (originalFileName : String) (nowMs : Nat) : String :=
  "ocr_direct_" ++ sanitizeFileName originalFileName ++ "_" ++ decRepr nowMs

/-- The `finally` block of `performOcr` (directApiOcrService.js lines
402-429): when the `googleDocId` and `accessToken` variables are both truthy,
issue the delete; on delete failure set the error when it was empty, otherwise
append with a `; Cleanup Error:` separator, never touching `success`; always
record the total duration. -/
def finallyStep (r : OcrResult) (googleDocId accessToken : Option String)
    (env : OcrEnv) : OcrResult × List ApiCall :=
  let withTotal := fun (x : OcrResult) =>
    { x with timing := x.timing ++ [("total_duration_direct_api", env.totalDur)] }
  if truthyS googleDocId && truthyS accessToken then
    let docId := googleDocId.getD ""
    match env.deleteResult with
    | .ok _ =>
      (withTotal { r with timing := r.timing ++ [("4_delete_temp_doc", env.deleteDur)] },
       [.deleteDoc docId])
    | .error m =>
      let r' :=
        if r.error = "" then { r with error := "Cleanup Error: " ++ m }
        else { r with error := r.error ++ "; Cleanup Error: " ++ m }
      (withTotal r', [.deleteDoc docId])
  else
    (withTotal r, [])

/-- Models `performOcr` (directApiOcrService.js lines 289-432).  The decoded
payload bytes (`imageData`) only feed the oracled upload request, so they do
not influence the observable outcome; `nowMs` is the `Date.now()` value used
in the safe document name.  Returns the Result together with the list of
remote calls issued. -/
def performOcr (imageData : List Nat) (originalFileName mimeType : String)
    (nowMs : Nat) (env : OcrEnv) : OcrResult × List ApiCall :=
  let r0 : OcrResult :=
    { fileName := originalFileName
      success := false
      text := ""
      error := ""
      timing := [("0_start_direct_api", 0)]
      credentialUsed := "unknown" }
  match env.credsResult with
  | .error e =>
    -- getRandomCredentials threw a plain Error; no token, no artifact.
    finallyStep { r0 with error := "Processing Error: " ++ e } none none env
  | .ok cr =>
    let r1 := { r0 with credentialUsed := cr.2 }
    match env.tokenResult with
    | .error e =>
      let (rf, dc) := finallyStep { r1 with error := "Processing Error: " ++ e } none none env
      (rf, .authTokenCall :: dc)
    | .ok accessToken =>
      let r2 := { r1 with timing := r1.timing ++ [("1_auth_token", env.authDur)] }
      let docName := safeFileName originalFileName nowMs
      match env.uploadResult with
      | .error e =>
        let (rf, dc) :=
          finallyStep { r2 with error := formatOcrError e } none (some accessToken) env
        (rf, .authTokenCall :: .uploadDoc docName mimeType :: dc)
      | .ok idOpt =>
        if truthyS idOpt then
          let r3 := { r2 with timing := r2.timing ++ [("2_upload_to_gdoc", env.uploadDur)] }
          match env.exportResult with
          | .error e =>
            let (rf, dc) :=
              finallyStep { r3 with error := formatOcrError e } idOpt (some accessToken) env
            (rf, .authTokenCall :: .uploadDoc docName mimeType ::
              .exportDoc (idOpt.getD "") :: dc)
          | .ok extractedText =>
            let r4 :=
              { r3 with success := true, text := extractedText
                        timing := r3.timing ++ [("3_export_as_text", env.exportDur)] }
            let (rf, dc) := finallyStep r4 idOpt (some accessToken) env
            (rf, .authTokenCall :: .uploadDoc docName mimeType ::
              .exportDoc (idOpt.getD "") :: dc)
        else
          -- `if (!googleDocId) throw ...`: the variable keeps the falsy id.
          let (rf, dc) :=
            finallyStep
              { r2 with error := "Processing Error: Failed to get document ID from upload response" }
              idOpt (some accessToken) env
          (rf, .authTokenCall :: .uploadDoc docName mimeType :: dc)

/-- One element of the `/api/ocr/base64` request body; `none` models an absent
field. -/
structure ImageItem where
  imageBase64 : Option String
  originalFileName : Option String
deriving DecidableEq

/-- A Result-shaped object as serialized by the server; `text` and
`credentialUsed` are `none` on the locally validated failure objects, which
omit those keys. -/
structure SResult where
  fileName : String
  success : Bool
  text : Option String
  error : String
  timing : List (String × Nat)
  credentialUsed : Option String
deriving DecidableEq

/-- The failed Result built for an item that fails local validation
(src/server.js lines 112-164): only fileName, success, error and the item
duration. -/
def validationResult (fileName errMsg : String) (itemDur : Nat) : SResult :=
  { fileName := fileName
    success := false
    text := none
    error := errMsg
    timing := [("item_duration", itemDur)]
    credentialUsed := none }

/-- Size ceiling for the decoded payload (src/server.js line 156: 5MB). -/
def maxImageSize : Nat := 5 * 1024 * 1024

/-- Lift a pipeline Result into the serialized shape, appending the per-item
duration (src/server.js line 179). -/
def toSResult (r : OcrResult) (itemDur : Nat) : SResult :=
  { fileName := r.fileName
    success := r.success
    text := some r.text
    error := r.error
    timing := r.timing ++ [("item_duration", itemDur)]
    credentialUsed := some r.credentialUsed }

/-- Models the per-item closure of src/server.js lines 108-191: field
presence check, base64/data-URI extraction, size ceiling, then dispatch to
`performOcr`.  The model's `performOcr` is total, so the surrounding
`catch (ocrError)` branch is unreachable.  Returns the Result and the remote
calls issued for this item. -/
def processItem (item : ImageItem) (nowMs itemDur : Nat) (env : OcrEnv) :
    SResult × List ApiCall :=
  if !truthyS item.imageBase64 || !truthyS item.originalFileName then
    (validationResult (jsOr item.originalFileName "N/A")
      "Missing required fields: imageBase64 and/or originalFileName." itemDur, [])
  else
    let imageBase64 := item.imageBase64.getD ""
    let originalFileName := item.originalFileName.getD ""
    match decodePayload imageBase64 with
    | .error msg => (validationResult originalFileName msg itemDur, [])
    | .ok dm =>
      if maxImageSize < dm.1 then
        (validationResult originalFileName
          ("Decoded image exceeds maximum size of 5MB. Size: " ++ decRepr dm.1 ++ " bytes.")
          itemDur, [])
      else
        let pr := performOcr [] originalFileName dm.2 nowMs env
        (toSResult pr.1 itemDur, pr.2)

/-- The request body of `POST /api/ocr/base64`: a single object or an array. -/
inductive ReqBody where
  | single (item : ImageItem)
  | batch (items : List ImageItem)

/-- The JSON response body shapes the endpoint produces. -/
inductive RespBody where
  | resultsArray (rs : List SResult)
  | withMeta (batchProcessingTime : Nat) (processedCount : Nat) (rs : List SResult)
deriving DecidableEq

/-- Whether a response body is a bare array of Results. -/
def isResultsArray : RespBody → Bool
  | .resultsArray _ => true
  | .withMeta _ _ _ => false

/-- HTTP status plus JSON body. -/
structure HttpResponse where
  status : Nat
  body : RespBody
deriving DecidableEq

/-- `Array.isArray(req.body) ? req.body : [req.body]` (src/server.js line 94). -/
def itemsOf : ReqBody → List ImageItem
  | .single it => [it]
  | .batch l => l

/-- Per-item mapping of the batch: item `k` of the array is processed with the
`k`-th oracle environment and item duration (the `Promise.all` fan-out is
modelled as the aggregation of the independent per-item outcomes, one outcome
per dispatched item). -/
def processAll (items : List ImageItem) (i nowMs : Nat) (envAt : Nat → OcrEnv)
    (durAt : Nat → Nat) : List (SResult × List ApiCall) :=
  match items with
  | [] => []
  | it :: rest => processItem it nowMs (durAt i) (envAt i) :: processAll rest (i + 1) nowMs envAt durAt

/-- The failed Result of the empty-body 400 response (src/server.js lines
98-104); the JSON object has no timing key. -/
def noImageDataResult : SResult :=
  { fileName := "N/A"
    success := false
    text := none
    error := "No image data provided."
    timing := []
    credentialUsed := none }

/-- Models the `POST /api/ocr/base64` handler (src/server.js lines 87-220):
empty array bodies get a 400 with a single synthetic failure Result in a bare
array; every other body is mapped item-wise and answered with
`{meta: {batchProcessingTime, processedCount}, results}` and status 200.
`batchDur` is the measured overall duration. -/
def handleBase64 (body : ReqBody) (nowMs : Nat) (envAt : Nat → OcrEnv)
    (durAt : Nat → Nat) (batchDur : Nat) : HttpResponse × List ApiCall :=
  let imageDataArray := itemsOf body
  if imageDataArray.length = 0 then
    ({ status := 400, body := .resultsArray [noImageDataResult] }, [])
  else
    let outs := processAll imageDataArray 0 nowMs envAt durAt
    let results := outs.map (·.1)
    ({ status := 200, body := .withMeta batchDur results.length results },
     (outs.map (·.2)).flatten)

/-- The validation error the handler assigns to an item before dispatch, when
any (`none` when the item reaches `performOcr`). -/
def itemValidationError (item : ImageItem) : Option String :=
  if !truthyS item.imageBase64 || !truthyS item.originalFileName then
    some "Missing required fields: imageBase64 and/or originalFileName."
  else
    match decodePayload (item.imageBase64.getD "") with
    | .error msg => some msg
    | .ok dm =>
      if maxImageSize < dm.1 then
        some ("Decoded image exceeds maximum size of 5MB. Size: " ++ decRepr dm.1 ++ " bytes.")
      else none

/-- The MIME type an item that passes validation is dispatched with. -/
def itemMimeType (item : ImageItem) : String :=
  match decodePayload (item.imageBase64.getD "") with
  | .ok dm => dm.2
  | .error _ => ""

/-- One entry of the credential file list: its path and, for entries
materialized from the environment bundle, the content already held in
`credentialContentCache`. -/
structure CredFile where
  path : String
  cached : Option Credentials
deriving DecidableEq

/-- Filesystem/environment oracle for the credential source.
`googleCredentialsVar` is `none` when `GOOGLE_CREDENTIALS` is unset, otherwise
the outcome of `JSON.parse` on it (parsing is all-or-nothing: entries of a
successfully parsed array are credential records); `secureFilesListing` is the
`fs.readdir` outcome for the secure_files directory; `readFileParse` is the
combined `fs.readFile` + `JSON.parse` outcome per path. -/
structure FsEnv where
  googleCredentialsVar : Option (Except String (List Credentials))
  secureFilesListing : Except String (List String)
  readFileParse : String → Except String Credentials

/-- Directory of file-backed credentials
(`path.join(__dirname, "..", "secure_files")`). -/
def secureFilesDir : String := "src/secure_files/"

/-- Path of the i-th materialized temp credential file
(`path.join(os.tmpdir(), "ocr-api-credentials", "credentials" + i + ".json")`). -/
def tempCredPath (i : Nat) : String :=
  "/tmp/ocr-api-credentials/credentials" ++ decRepr i ++ ".json"

/-- Materialize the bundle entries to temp files, caching each content
(directApiOcrService.js lines 99-108). -/
def enumTempFiles : List Credentials → Nat → List CredFile
  | [], _ => []
  | c :: rest, i => { path := tempCredPath (i + 1), cached := some c } :: enumTempFiles rest (i + 1)

/-- Name filter of the directory path (directApiOcrService.js lines 126-130). -/
def isCredFileName (f : String) : Bool :=
  jsStartsWith f "credentials" && jsEndsWith f ".json"

/-- Models `getCredentialFiles` (directApiOcrService.js lines 81-143).  With a
bundle present, a parse failure is caught and yields an empty list; entries of
a parsed bundle are materialized without any per-entry validation.  Without a
bundle, the directory is scanned for files matching the name pattern only
(contents are not read here); zero matches or a listing failure raise a
wrapped error.  The process-lifetime caching of the computed list is not
modelled (a single call is considered). -/
def getCredentialFiles (fs : FsEnv) : Except String (List CredFile) :=
  match fs.googleCredentialsVar with
  | some (.ok credentials) => .ok (enumTempFiles credentials 0)
  | some (.error _) => .ok []
  | none =>
    match fs.secureFilesListing with
    | .error e => .error ("Failed to read credential files: " ++ e)
    | .ok files =>
      let matched := files.filter isCredFileName
      if matched.length = 0 then
        .error "Failed to read credential files: No Google Cloud credential files found in secure_files directory"
      else
        .ok (matched.map fun f => { path := secureFilesDir ++ f, cached := none })

/-- The ten number words of the credential-number pattern. -/
def numberWords : List String :=
  ["zero", "one", "two", "three", "four", "five", "six", "seven", "eight", "nine"]

/-- Models the match against `/credentials(\d+|zero|...|nine)\.json$/`
(directApiOcrService.js lines 264-270): the digit run (or number word)
standing between a trailing `credentials` and `.json`, else `unknown`. -/
def credNumberOf (p : String) : String :=
  if jsEndsWith p ".json" then
    let stem := String.mk (p.data.take (p.data.length - 5))
    let ds := (stem.data.reverse.takeWhile Char.isDigit).reverse
    if ds.length != 0 &&
        jsEndsWith (String.mk (stem.data.take (stem.data.length - ds.length))) "credentials" then
      String.mk ds
    else
      match numberWords.find? (fun w => jsEndsWith stem ("credentials" ++ w)) with
      | some w => w
      | none => "unknown"
  else "unknown"

/-- Models `getRandomCredentials` (directApiOcrService.js lines 253-283):
fail when the file list is empty, otherwise select the file at the random
index (`Math.floor(Math.random() * length)`, modelled as `randIdx` reduced
mod the length), read the entry from the content cache or from disk, and
propagate any read/parse failure. -/
def getRandomCredentials (fs : FsEnv) (randIdx : Nat) :
    Except String (Credentials × String) :=
  match getCredentialFiles fs with
  | .error e => .error e
  | .ok credentialFiles =>
    if h : credentialFiles.length = 0 then .error "No credential files available"
    else
      let selected :=
        credentialFiles.get ⟨randIdx % credentialFiles.length,
          Nat.mod_lt _ (Nat.pos_of_ne_zero h)⟩
      let credentialNumber := credNumberOf selected.path
      match selected.cached with
      | some credentials => .ok (credentials, credentialNumber)
      | none =>
        match fs.readFileParse selected.path with
        | .ok credentials => .ok (credentials, credentialNumber)
        | .error e => .error e

/-- Number of delete requests in a call trace. -/
def deleteCount (calls : List ApiCall) : Nat :=
  (calls.filter fun c => match c with | .deleteDoc _ => true | _ => false).length

/-- Whether an execution under `env` obtains an artifact id from the upload
step: credentials resolve, the auth step yields a (truthy) token, and the
upload response carries a truthy id. -/
def artifactObtained (env : OcrEnv) : Bool :=
  (match env.credsResult with | .ok _ => true | .error _ => false) &&
  (match env.tokenResult with | .ok t => t ≠ "" | .error _ => false) &&
  (match env.uploadResult with | .ok idOpt => truthyS idOpt | .error _ => false)

/-- Whether any step reached by the execution under `env` fails (credential
acquisition, token acquisition, upload, missing/falsy upload id, export, or an
attempted delete). -/
def anyStepFailure (env : OcrEnv) : Bool :=
  match env.credsResult with
  | .error _ => true
  | .ok _ =>
    match env.tokenResult with
    | .error _ => true
    | .ok t =>
      match env.uploadResult with
      | .error _ => true
      | .ok idOpt =>
        if truthyS idOpt then
          match env.exportResult with
          | .error _ => true
          | .ok _ =>
            if t = "" then false
            else match env.deleteResult with
              | .error _ => true
              | .ok _ => false
        else true

/-- The list of Results carried by a response body. -/
def bodyResults : RespBody → List SResult
  | .resultsArray rs => rs
  | .withMeta _ _ rs => rs

/-- A sample identity used for concrete executions. -/
def sampleCreds : Credentials :=
  { client_email := "svc@example.iam.gserviceaccount.com", private_key := "key" }

/-- An execution oracle in which every remote call succeeds. -/
def envAllOk : OcrEnv :=
  { credsResult := .ok (sampleCreds, "1")
    tokenResult := .ok "tok"
    uploadResult := .ok (some "doc1")
    exportResult := .ok "hello world"
    deleteResult := .ok ()
    authDur := 1, uploadDur := 2, exportDur := 3, deleteDur := 4, totalDur := 10 }

/-- An execution oracle in which only the final delete fails. -/
def envCleanupFail : OcrEnv :=
  { envAllOk with deleteResult := .error "boom" }

/-- An execution oracle in which credential acquisition fails. -/
def envCredsFail : OcrEnv :=
  { envAllOk with credsResult := .error "No credential files available" }

/-- A raw-base64 payload of 7 MiB of 'A' characters, decoding to 5.25 MiB,
above the 5 MiB ceiling. -/
def oversizedPayload : String :=
  String.mk (List.replicate 7340032 'A')

/-- A parsed identity standing for the one well-formed credential file. -/
def goodCred : Credentials :=
  { client_email := "one@example.com", private_key := "key1" }

/-- A credential-source oracle with two name-matching files in the directory,
the second of which holds content that fails to parse. -/
def badFs : FsEnv :=
  { googleCredentialsVar := none
    secureFilesListing := .ok ["credentials1.json", "credentials2.json"]
    readFileParse := fun p =>
      if p = secureFilesDir ++ "credentials1.json" then .ok goodCred
      else .error "Unexpected token x in JSON at position 0" }

/-- A credential-source oracle whose environment bundle fails to parse as a
whole. -/
def bundleBadFs : FsEnv :=
  { googleCredentialsVar := some (.error "Unexpected end of JSON input")
    secureFilesListing := .ok ["credentials1.json"]
    readFileParse := fun _ => .ok goodCred }

/-- A credential-source oracle whose secure_files directory cannot be read. -/
def dirFailFs : FsEnv :=
  { googleCredentialsVar := none
    secureFilesListing := .error "ENOENT"
    readFileParse := fun _ => .ok goodCred }

/-- A concrete batch of three items whose middle item fails validation. -/
def sampleBatch : List ImageItem :=
  [{ imageBase64 := some "QUJD", originalFileName := some "a.png" },
   { imageBase64 := none, originalFileName := none },
   { imageBase64 := some "QUJD", originalFileName := some "c.png" }]

/-- A string is empty iff its character list is. -/
theorem str_eq_empty_iff (s : String) : s = "" ↔ s.data = [] := by
  constructor
  · intro h
    rw [h]
  · intro h
    have h2 : s = String.mk s.data := rfl
    rw [h2, h]

/-- An append of strings is empty iff both sides are. -/
theorem str_append_eq_empty_iff (s t : String) : s ++ t = "" ↔ s = "" ∧ t = "" := by
  rw [str_eq_empty_iff, String.data_append, List.append_eq_nil, str_eq_empty_iff,
    str_eq_empty_iff]

/-- The pipeline's formatted step errors are never the empty string. -/
theorem formatOcrError_ne_empty (e : ApiFailure) : formatOcrError e ≠ "" := by
  rcases e with ⟨msg, resp⟩
  rcases resp with _ | r
  · simp [formatOcrError, str_append_eq_empty_iff]
  · rcases r with ⟨st, dem⟩
    rcases dem with _ | m <;> simp [formatOcrError, str_append_eq_empty_iff]

/-- C1: the claimed invariant `success == true → error == ""` fails on the
code: an execution whose export succeeds but whose cleanup delete fails
returns `success == true` together with a non-empty `error`
(directApiOcrService.js lines 416-424 append the cleanup failure without
flipping `success`). -/
theorem claim_c1_counterexample :
    (performOcr [] "x.png" "image/png" 0 envCleanupFail).1.success = true ∧
    (performOcr [] "x.png" "image/png" 0 envCleanupFail).1.error = "Cleanup Error: boom" ∧
    (performOcr [] "x.png" "image/png" 0 envCleanupFail).1.error ≠ "" := by
  refine ⟨rfl, rfl, ?_⟩
  decide

/-- C1 (amended): `success == true` implies `text` is exactly the exported
content and `error` is either empty or exactly a `Cleanup Error:` message
from a failed delete; `success == false` implies `text == ""`. -/
theorem claim_c1_result_invariant (imageData : List Nat) (name mt : String)
    (nowMs : Nat) (env : OcrEnv) :
    ((performOcr imageData name mt nowMs env).1.success = true →
      env.exportResult = .ok (performOcr imageData name mt nowMs env).1.text ∧
      ((performOcr imageData name mt nowMs env).1.error = "" ∨
        ∃ m, env.deleteResult = .error m ∧
          (performOcr imageData name mt nowMs env).1.error = "Cleanup Error: " ++ m)) ∧
    ((performOcr imageData name mt nowMs env).1.success = false →
      (performOcr imageData name mt nowMs env).1.text = "") := by
  rcases env with ⟨creds, tok, up, ex, del, a, u, e, d, t⟩
  rcases creds with e1 | c <;> rcases tok with e2 | tk <;>
    rcases up with e3 | idv <;> rcases ex with e4 | tx <;> rcases del with e5 | u5 <;>
    first
      | (rcases idv with _ | s <;> simp [performOcr, finallyStep, truthyS] <;>
          split_ifs <;> simp_all [formatOcrError_ne_empty])
      | (simp [performOcr, finallyStep, truthyS] <;> split_ifs <;>
          simp_all [formatOcrError_ne_empty])

/-- C1 witness: the invariant instantiated on a fully successful execution. -/
theorem claim_c1_result_invariant_witness :
    envAllOk.exportResult = .ok (performOcr [] "x.png" "image/png" 0 envAllOk).1.text ∧
    ((performOcr [] "x.png" "image/png" 0 envAllOk).1.error = "" ∨
      ∃ m, envAllOk.deleteResult = .error m ∧
        (performOcr [] "x.png" "image/png" 0 envAllOk).1.error = "Cleanup Error: " ++ m) :=
  (claim_c1_result_invariant [] "x.png" "image/png" 0 envAllOk).1 rfl

/-- C2: an execution issues exactly one delete request when it obtains an
artifact id from the upload step (which entails the auth step produced a
truthy token, the guard the code checks before deleting), and none
otherwise — regardless of whether the export succeeded or failed. -/
theorem claim_c2_cleanup_exactly_once (imageData : List Nat) (name mt : String)
    (nowMs : Nat) (env : OcrEnv) :
    deleteCount (performOcr imageData name mt nowMs env).2 =
      if artifactObtained env then 1 else 0 := by
  rcases env with ⟨creds, tok, up, ex, del, a, u, e, d, t⟩
  rcases creds with e1 | c <;> rcases tok with e2 | tk <;>
    rcases up with e3 | idv <;> rcases ex with e4 | tx <;> rcases del with e5 | u5 <;>
    first
      | (rcases idv with _ | s <;>
          simp [performOcr, finallyStep, artifactObtained, deleteCount, truthyS] <;>
          split_ifs <;> simp_all [deleteCount])
      | (simp [performOcr, finallyStep, artifactObtained, deleteCount, truthyS] <;>
          split_ifs <;> simp_all [deleteCount])

/-- C3: `performOcr` is a total function into Results (the embedding returns
a Result on every path, mirroring the try/catch/finally structure in which
every await is covered by a handler), and every failure of a reached step is
captured in the returned Result's error field; with no failure the error
field stays empty and the Result is successful. -/
theorem claim_c3_never_raises (imageData : List Nat) (name mt : String)
    (nowMs : Nat) (env : OcrEnv) :
    (anyStepFailure env = true → (performOcr imageData name mt nowMs env).1.error ≠ "") ∧
    (anyStepFailure env = false →
      (performOcr imageData name mt nowMs env).1.error = "" ∧
      (performOcr imageData name mt nowMs env).1.success = true) := by
  rcases env with ⟨creds, tok, up, ex, del, a, u, e, d, t⟩
  rcases creds with e1 | c <;> rcases tok with e2 | tk <;>
    rcases up with e3 | idv <;> rcases ex with e4 | tx <;> rcases del with e5 | u5 <;>
    first
      | (rcases idv with _ | s <;>
          simp [performOcr, finallyStep, truthyS, anyStepFailure,
            str_append_eq_empty_iff, formatOcrError_ne_empty] <;>
          split_ifs <;>
          simp_all [str_append_eq_empty_iff, formatOcrError_ne_empty])
      | (simp [performOcr, finallyStep, truthyS, anyStepFailure,
            str_append_eq_empty_iff, formatOcrError_ne_empty] <;> split_ifs <;>
          simp_all [str_append_eq_empty_iff, formatOcrError_ne_empty])

/-- C3 witness: a failed credential acquisition is captured in the error
field of the returned Result. -/
theorem claim_c3_never_raises_witness :
    (performOcr [] "x.png" "image/png" 0 envCredsFail).1.error ≠ "" :=
  (claim_c3_never_raises [] "x.png" "image/png" 0 envCredsFail).1 rfl

/-- C4: two `getAccessToken` calls for the same identity within the cache
TTL perform exactly one remote exchange (the second is a cache hit returning
the same token without touching the network), and the cache TTL (45 min) is
strictly below the lifetime asserted in the signed JWT (1 hour). -/
theorem claim_c4_token_cache (c : Credentials) (nowMs nowMs2 nowSec : Nat)
    (tok : String) (ex2 : Except String String)
    (h : nowMs2 - nowMs < tokenCacheTTLms) :
    (getAccessToken c [] nowMs (.ok tok)).exchanges = 1 ∧
    (getAccessToken c (getAccessToken c [] nowMs (.ok tok)).cache nowMs2 ex2).exchanges = 0 ∧
    (getAccessToken c (getAccessToken c [] nowMs (.ok tok)).cache nowMs2 ex2).result = .ok tok ∧
    tokenCacheTTLms < ((jwtClaims c nowSec).exp - (jwtClaims c nowSec).iat) * 1000 := by
  refine ⟨rfl, ?_, ?_, ?_⟩
  · simp [getAccessToken, cacheGet, cacheSet, List.find?, h]
  · simp [getAccessToken, cacheGet, cacheSet, List.find?, h]
  · simp [jwtClaims, tokenCacheTTLms]

/-- C4 witness: the caching behaviour at a concrete identity and instant,
with the remote endpoint down for the (never-performed) second exchange. -/
theorem claim_c4_token_cache_witness :
    (getAccessToken sampleCreds [] 0 (.ok "t1")).exchanges = 1 ∧
    (getAccessToken sampleCreds (getAccessToken sampleCreds [] 0 (.ok "t1")).cache 0
      (.error "down")).exchanges = 0 ∧
    (getAccessToken sampleCreds (getAccessToken sampleCreds [] 0 (.ok "t1")).cache 0
      (.error "down")).result = .ok "t1" ∧
    tokenCacheTTLms < ((jwtClaims sampleCreds 0).exp - (jwtClaims sampleCreds 0).iat) * 1000 :=
  claim_c4_token_cache sampleCreds 0 0 0 "t1" (.error "down") (by decide)

/-- Decimal digit characters are digits. -/
theorem decDigitChar_isDigit (d : Nat) (hd : d < 10) : (decDigitChar d).isDigit = true := by
  interval_cases d <;> decide

/-- Characters produced by the digit accumulator come from the accumulator or
are digits. -/
theorem mem_decDigitsCore (fuel n : Nat) (acc : List Char) (c : Char)
    (hc : c ∈ decDigitsCore fuel n acc) : c ∈ acc ∨ c.isDigit = true := by
  induction fuel generalizing n acc with
  | zero => exact .inl hc
  | succ fuel ih =>
    rw [decDigitsCore] at hc
    split at hc
    · exact .inl hc
    · rcases ih (n / 10) _ hc with h | h
      · rcases List.mem_cons.mp h with h2 | h2
        · exact .inr (h2 ▸ decDigitChar_isDigit _ (Nat.mod_lt _ (by omega)))
        · exact .inl h2
      · exact .inr h

/-- Every character of a rendered timestamp is a digit. -/
theorem decRepr_isDigit (n : Nat) (c : Char) (hc : c ∈ (decRepr n).data) :
    c.isDigit = true := by
  unfold decRepr at hc
  split at hc
  · simp at hc
    subst hc
    decide
  · rcases mem_decDigitsCore n n [] c hc with h | h
    · simp at h
    · exact h

/-- Digits are in the safe-filename character set. -/
theorem isSafeFileChar_of_isDigit (c : Char) (h : c.isDigit = true) :
    isSafeFileChar c = true := by
  simp [isSafeFileChar, Char.isAlphanum, h]

/-- Every character of the remote-facing document name lies in the safe set. -/
theorem safeFileName_safe (name : String) (nowMs : Nat) :
    ∀ c ∈ (safeFileName name nowMs).data, isSafeFileChar c = true := by
  intro ch hc
  simp only [safeFileName, String.data_append] at hc
  rcases List.mem_append.mp hc with hc | hc
  · rcases List.mem_append.mp hc with hc | hc
    · rcases List.mem_append.mp hc with hc | hc
      · have hlit : ∀ c ∈ "ocr_direct_".data, isSafeFileChar c = true := by decide
        exact hlit _ hc
      · simp only [sanitizeFileName] at hc
        rcases List.mem_map.mp hc with ⟨a, _, rfl⟩
        by_cases hs : isSafeFileChar a = true
        · simp [hs]
        · simp only [if_neg hs]
          decide
    · have hlit : ∀ c ∈ "_".data, isSafeFileChar c = true := by decide
      exact hlit _ hc
  · exact isSafeFileChar_of_isDigit _ (decRepr_isDigit nowMs _ hc)

/-- The pipeline reports the original file name verbatim in its Result. -/
theorem performOcr_fileName (imageData : List Nat) (name mt : String) (nowMs : Nat)
    (env : OcrEnv) : (performOcr imageData name mt nowMs env).1.fileName = name := by
  rcases env with ⟨creds, tok, up, ex, del, a, u, e, d, t⟩
  rcases creds with e1 | c <;> rcases tok with e2 | tk <;>
    rcases up with e3 | idv <;> rcases ex with e4 | tx <;> rcases del with e5 | u5 <;>
    first
      | (rcases idv with _ | s <;> simp [performOcr, finallyStep, truthyS] <;>
          split_ifs <;> simp_all)
      | (simp [performOcr, finallyStep, truthyS] <;> split_ifs <;> simp_all)

/-- Any upload issued by the pipeline carries exactly the safe document name. -/
theorem performOcr_uploadDoc_eq (imageData : List Nat) (name mt : String) (nowMs : Nat)
    (env : OcrEnv) (dn mtype : String)
    (hmem : ApiCall.uploadDoc dn mtype ∈ (performOcr imageData name mt nowMs env).2) :
    dn = safeFileName name nowMs := by
  rcases env with ⟨creds, tok, up, ex, del, a, u, e, d, t⟩
  rcases creds with e1 | c <;> rcases tok with e2 | tk <;>
    rcases up with e3 | idv <;> rcases ex with e4 | tx <;> rcases del with e5 | u5 <;>
    first
      | (rcases idv with _ | s <;> simp_all [performOcr, finallyStep, truthyS] <;>
          split_ifs at hmem <;> simp_all)
      | (simp_all [performOcr, finallyStep, truthyS] <;> split_ifs at hmem <;> simp_all)

/-- C9: the Result's fileName reports the original filename verbatim, while
the remote-facing document name sent with any upload is the sanitized safe
name, containing only characters of the safe set (letters, digits, dot,
underscore, hyphen); unsafe characters are replaced by underscores. -/
theorem claim_c9_filename_sanitization (imageData : List Nat) (name mt : String)
    (nowMs : Nat) (env : OcrEnv) :
    (performOcr imageData name mt nowMs env).1.fileName = name ∧
    ∀ dn mtype, ApiCall.uploadDoc dn mtype ∈ (performOcr imageData name mt nowMs env).2 →
      dn = safeFileName name nowMs ∧ ∀ ch ∈ dn.data, isSafeFileChar ch = true := by
  refine ⟨performOcr_fileName imageData name mt nowMs env, ?_⟩
  intro dn mtype hmem
  have hd := performOcr_uploadDoc_eq imageData name mt nowMs env dn mtype hmem
  refine ⟨hd, ?_⟩
  intro ch hch
  rw [hd] at hch
  exact safeFileName_safe name nowMs ch hch

/-- C9 witness: for `originalFileName = "a/b .png"` the uploaded document
name is `ocr_direct_a_b_.png_5` (no '/' or space), while the Result still
reports `a/b .png`. -/
theorem claim_c9_filename_sanitization_witness :
    (performOcr [] "a/b .png" "image/png" 5 envAllOk).1.fileName = "a/b .png" ∧
    ("ocr_direct_a_b_.png_5" = safeFileName "a/b .png" 5 ∧
      ∀ ch ∈ "ocr_direct_a_b_.png_5".data, isSafeFileChar ch = true) :=
  ⟨(claim_c9_filename_sanitization [] "a/b .png" "image/png" 5 envAllOk).1,
   (claim_c9_filename_sanitization [] "a/b .png" "image/png" 5 envAllOk).2
     "ocr_direct_a_b_.png_5" "image/png" (by
      have h : (performOcr [] "a/b .png" "image/png" 5 envAllOk).2 =
          [ApiCall.authTokenCall,
           ApiCall.uploadDoc "ocr_direct_a_b_.png_5" "image/png",
           ApiCall.exportDoc "doc1", ApiCall.deleteDoc "doc1"] := rfl
      rw [h]
      simp)⟩

/-- The per-item mapping produces exactly one outcome per input item. -/
theorem processAll_length (items : List ImageItem) (i nowMs : Nat)
    (envAt : Nat → OcrEnv) (durAt : Nat → Nat) :
    (processAll items i nowMs envAt durAt).length = items.length := by
  induction items generalizing i with
  | nil => rfl
  | cons it rest ih => simp [processAll, ih]

/-- C6: the claimed bare-array response for a single-object body fails on the
code: src/server.js line 206 always answers with the
`meta`/`results` object (the `isArrayOfImages` flag is never used to shape the
response), as this concrete single-object request shows. -/
theorem claim_c6_counterexample :
    isResultsArray (handleBase64 (.single ⟨none, none⟩) 0 (fun _ => envAllOk)
      (fun _ => 0) 3).1.body = false ∧
    (handleBase64 (.single ⟨none, none⟩) 0 (fun _ => envAllOk) (fun _ => 0) 3).1.body =
      .withMeta 3 1 [validationResult "N/A"
        "Missing required fields: imageBase64 and/or originalFileName." 0] := ⟨rfl, rfl⟩

/-- C6 (amended): every non-empty body — single object or array — is answered
with status 200 and `{meta: {batchProcessingTime, processedCount}, results}`
where `processedCount` equals the number of input items (1 for a single
object) and `results` has one Result per item. -/
theorem claim_c6_response_shape (body : ReqBody) (nowMs : Nat) (envAt : Nat → OcrEnv)
    (durAt : Nat → Nat) (batchDur : Nat) (h : itemsOf body ≠ []) :
    ∃ rs : List SResult,
      (handleBase64 body nowMs envAt durAt batchDur).1 =
        { status := 200, body := .withMeta batchDur (itemsOf body).length rs } ∧
      rs.length = (itemsOf body).length := by
  have hlen : (itemsOf body).length ≠ 0 := by
    intro h0
    exact h (List.length_eq_zero.mp h0)
  refine ⟨(processAll (itemsOf body) 0 nowMs envAt durAt).map (·.1), ?_, ?_⟩
  · simp only [handleBase64]
    rw [if_neg hlen]
    simp [processAll_length]
  · simp [processAll_length]

/-- C6 witness: the amended response shape at a concrete single-object body. -/
theorem claim_c6_response_shape_witness :
    ∃ rs : List SResult,
      (handleBase64 (.single ⟨none, none⟩) 0 (fun _ => envAllOk) (fun _ => 0) 3).1 =
        { status := 200,
          body := .withMeta 3 (itemsOf (.single ⟨none, none⟩)).length rs } ∧
      rs.length = (itemsOf (.single ⟨none, none⟩)).length :=
  claim_c6_response_shape (.single ⟨none, none⟩) 0 (fun _ => envAllOk) (fun _ => 0) 3
    (by decide)

/-- C10: an `imageBase64` string not starting with `data:` is accepted as raw
base64 — extraction yields the decoded payload with the default MIME type
`application/octet-stream`, and (when the fields are present and the size
ceiling is met) the item is dispatched to the pipeline with that MIME type;
only a `data:` string failing the image-or-PDF pattern is rejected with
`Invalid base64 image format.`. -/
theorem claim_c10_raw_base64 (s fname : String) (nowMs itemDur : Nat) (env : OcrEnv) :
    (jsStartsWith s "data:" = false →
      decodePayload s = .ok (b64DecodedLen s, "application/octet-stream") ∧
      (s ≠ "" → fname ≠ "" → b64DecodedLen s ≤ maxImageSize →
        processItem ⟨some s, some fname⟩ nowMs itemDur env =
          (toSResult (performOcr [] fname "application/octet-stream" nowMs env).1 itemDur,
           (performOcr [] fname "application/octet-stream" nowMs env).2))) ∧
    (jsStartsWith s "data:" = true → parseDataUri s = none →
      decodePayload s = .error "Invalid base64 image format.") := by
  constructor
  · intro hns
    constructor
    · simp [decodePayload, hns]
    · intro hs hf hsize
      have hnlt : ¬(maxImageSize < b64DecodedLen s) := by omega
      simp [processItem, truthyS, hs, hf, decodePayload, hns, hnlt]
  · intro h1 h2
    simp [decodePayload, h1, h2]

/-- C10 witness: the raw string `QUJD` is accepted with the default MIME type
and dispatched, while `data:text/plain;base64,AA` is rejected. -/
theorem claim_c10_raw_base64_witness :
    (decodePayload "QUJD" = .ok (b64DecodedLen "QUJD", "application/octet-stream") ∧
      processItem ⟨some "QUJD", some "x.png"⟩ 0 7 envAllOk =
        (toSResult (performOcr [] "x.png" "application/octet-stream" 0 envAllOk).1 7,
         (performOcr [] "x.png" "application/octet-stream" 0 envAllOk).2)) ∧
    decodePayload "data:text/plain;base64,AA" = .error "Invalid base64 image format." := by
  have h := claim_c10_raw_base64 "QUJD" "x.png" 0 7 envAllOk
  refine ⟨⟨(h.1 rfl).1, (h.1 rfl).2 (by decide) (by decide) (by decide)⟩, ?_⟩
  exact (claim_c10_raw_base64 "data:text/plain;base64,AA" "x.png" 0 7 envAllOk).2 rfl rfl

/-- JS `v || "N/A"` agrees with `getD ""` on truthy values. -/
theorem jsOr_of_truthy (v : Option String) (d : String) (h : truthyS v = true) :
    jsOr v d = v.getD "" := by
  cases v with
  | none => simp [truthyS] at h
  | some s =>
    simp [truthyS] at h
    simp [jsOr, h]

/-- An item that fails local validation short-circuits into a failed Result
with the validation message, without issuing any remote call. -/
theorem processItem_invalid (it : ImageItem) (nowMs d : Nat) (env : OcrEnv) (msg : String)
    (hv : itemValidationError it = some msg) :
    processItem it nowMs d env =
      (validationResult (jsOr it.originalFileName "N/A") msg d, []) := by
  unfold itemValidationError at hv
  unfold processItem
  by_cases h1 : (!truthyS it.imageBase64 || !truthyS it.originalFileName) = true
  · rw [if_pos h1] at hv
    rw [if_pos h1]
    simp at hv
    rw [hv]
  · rw [if_neg h1] at hv
    rw [if_neg h1]
    have h1f : (!truthyS it.imageBase64 || !truthyS it.originalFileName) = false := by
      simpa using h1
    have htr : truthyS it.originalFileName = true := by
      rcases Bool.or_eq_false_iff.mp h1f with ⟨-, h2⟩
      simpa using h2
    cases hd : decodePayload (it.imageBase64.getD "") with
    | error m =>
      rw [hd] at hv
      simp at hv
      simp [hd, hv, jsOr_of_truthy _ _ htr]
    | ok dm =>
      rw [hd] at hv
      simp only [] at hv
      by_cases hsz : maxImageSize < dm.1
      · rw [if_pos hsz] at hv
        simp at hv
        simp [hd, hsz, hv, jsOr_of_truthy _ _ htr]
      · rw [if_neg hsz] at hv
        simp at hv

/-- An item that passes local validation is dispatched to the pipeline and its
Result (with the per-item duration appended) is returned unchanged. -/
theorem processItem_valid (it : ImageItem) (nowMs d : Nat) (env : OcrEnv)
    (hv : itemValidationError it = none) :
    processItem it nowMs d env =
      (toSResult (performOcr [] (it.originalFileName.getD "") (itemMimeType it) nowMs env).1 d,
       (performOcr [] (it.originalFileName.getD "") (itemMimeType it) nowMs env).2) := by
  unfold itemValidationError at hv
  unfold processItem itemMimeType
  by_cases h1 : (!truthyS it.imageBase64 || !truthyS it.originalFileName) = true
  · rw [if_pos h1] at hv
    simp at hv
  · rw [if_neg h1] at hv
    rw [if_neg h1]
    cases hd : decodePayload (it.imageBase64.getD "") with
    | error m =>
      rw [hd] at hv
      simp at hv
    | ok dm =>
      rw [hd] at hv
      simp only [] at hv
      by_cases hsz : maxImageSize < dm.1
      · rw [if_pos hsz] at hv
        simp at hv
      · rw [if_neg hsz] at hv
        simp [hd, hsz]

/-- Element `k` of the per-item mapping is the outcome of item `k` under its
own oracle. -/
theorem processAll_getElem (items : List ImageItem) (i0 k nowMs : Nat)
    (envAt : Nat → OcrEnv) (durAt : Nat → Nat) :
    (processAll items i0 nowMs envAt durAt)[k]? =
      (items[k]?).map (fun it => processItem it nowMs (durAt (i0 + k)) (envAt (i0 + k))) := by
  induction items generalizing i0 k with
  | nil => simp [processAll]
  | cons it rest ih =>
    cases k with
    | zero => simp [processAll]
    | succ k =>
      have harith : i0 + 1 + k = i0 + (k + 1) := by omega
      simp [processAll, ih (i0 + 1) k, harith]

/-- C7: a batch of N items always yields exactly N Results in order — item
`k`'s Result is the outcome of processing item `k` alone — where items failing
local validation are marked failed with their validation error and issue no
remote call, while every other item is dispatched to the pipeline and
completes normally. -/
theorem claim_c7_batch_isolation (items : List ImageItem) (nowMs : Nat)
    (envAt : Nat → OcrEnv) (durAt : Nat → Nat) (batchDur : Nat) (h : items ≠ []) :
    ∃ rs : List SResult,
      (handleBase64 (.batch items) nowMs envAt durAt batchDur).1.body =
        .withMeta batchDur items.length rs ∧
      rs.length = items.length ∧
      (∀ k : Nat, rs[k]? =
        (items[k]?).map (fun it => (processItem it nowMs (durAt k) (envAt k)).1)) ∧
      (∀ (it : ImageItem) (d : Nat) (env : OcrEnv) (msg : String),
        itemValidationError it = some msg →
        processItem it nowMs d env =
          (validationResult (jsOr it.originalFileName "N/A") msg d, [])) ∧
      (∀ (it : ImageItem) (d : Nat) (env : OcrEnv), itemValidationError it = none →
        processItem it nowMs d env =
          (toSResult (performOcr [] (it.originalFileName.getD "") (itemMimeType it) nowMs env).1 d,
           (performOcr [] (it.originalFileName.getD "") (itemMimeType it) nowMs env).2)) := by
  have hlen : items.length ≠ 0 := fun h0 => h (List.length_eq_zero.mp h0)
  refine ⟨(processAll items 0 nowMs envAt durAt).map (·.1), ?_, ?_, ?_, ?_, ?_⟩
  · simp only [handleBase64, itemsOf]
    rw [if_neg hlen]
    simp [processAll_length]
  · simp [processAll_length]
  · intro k
    rw [List.getElem?_map, processAll_getElem]
    cases items[k]? <;> simp
  · exact fun it d env msg hv => processItem_invalid it nowMs d env msg hv
  · exact fun it d env hv => processItem_valid it nowMs d env hv

/-- C7 witness: the batch behaviour at a concrete 3-item batch whose middle
item is invalid. -/
theorem claim_c7_batch_isolation_witness :
    ∃ rs : List SResult,
      (handleBase64 (.batch sampleBatch) 0 (fun _ => envAllOk) (fun _ => 0) 9).1.body =
        .withMeta 9 sampleBatch.length rs ∧
      rs.length = sampleBatch.length ∧
      (∀ k : Nat, rs[k]? =
        (sampleBatch[k]?).map (fun it => (processItem it 0 0 envAllOk).1)) ∧
      (∀ (it : ImageItem) (d : Nat) (env : OcrEnv) (msg : String),
        itemValidationError it = some msg →
        processItem it 0 d env =
          (validationResult (jsOr it.originalFileName "N/A") msg d, [])) ∧
      (∀ (it : ImageItem) (d : Nat) (env : OcrEnv), itemValidationError it = none →
        processItem it 0 d env =
          (toSResult (performOcr [] (it.originalFileName.getD "") (itemMimeType it) 0 env).1 d,
           (performOcr [] (it.originalFileName.getD "") (itemMimeType it) 0 env).2)) :=
  claim_c7_batch_isolation sampleBatch 0 (fun _ => envAllOk) (fun _ => 0) 9 (by decide)

/-- Filtering a replicated list with a predicate true on its element keeps
everything. -/
theorem filter_replicate_pos (n : Nat) (a : Char) (p : Char → Bool) (h : p a = true) :
    (List.replicate n a).filter p = List.replicate n a := by
  induction n with
  | zero => rfl
  | succ m ih => simp [List.replicate_succ, List.filter_cons, h, ih]

/-- Decoded length of an all-'A' base64 string. -/
theorem b64DecodedLen_repA (n : Nat) :
    b64DecodedLen (String.mk (List.replicate n 'A')) = n * 3 / 4 := by
  unfold b64DecodedLen b64CharCount
  show ((List.replicate n 'A').filter isB64Char).length * 3 / 4 = n * 3 / 4
  rw [filter_replicate_pos n 'A' isB64Char (by decide), List.length_replicate]

/-- An all-'A' string is not a data URI. -/
theorem jsStartsWith_repA (n : Nat) (h : n ≠ 0) :
    jsStartsWith (String.mk (List.replicate n 'A')) "data:" = false := by
  obtain ⟨m, rfl⟩ : ∃ m, n = m + 1 := ⟨n - 1, by omega⟩
  show (stripPrefixL "data:".data (List.replicate (m + 1) 'A')).isSome = false
  rw [List.replicate_succ]
  have hd : "data:".data = 'd' :: "ata:".data := rfl
  rw [hd]
  simp only [stripPrefixL]
  rw [if_neg (by decide)]
  rfl

/-- A non-trivial all-'A' string is non-empty. -/
theorem repA_ne_empty (n : Nat) (h : n ≠ 0) : String.mk (List.replicate n 'A') ≠ "" := by
  intro he
  have h2 : List.replicate n 'A' = ([] : List Char) := congrArg String.data he
  have h3 := congrArg List.length h2
  simp at h3
  exact h h3

/-- A single-item request whose decoded payload exceeds the ceiling is
answered in full by the local size check. -/
theorem handle_single_oversize (s fname : String) (nowMs : Nat)
    (envAt : Nat → OcrEnv) (durAt : Nat → Nat) (batchDur : Nat)
    (hs : s ≠ "") (hf : fname ≠ "")
    (hraw : jsStartsWith s "data:" = false)
    (hsize : maxImageSize < b64DecodedLen s) :
    handleBase64 (.single ⟨some s, some fname⟩) nowMs envAt durAt batchDur =
      ({ status := 200,
         body := .withMeta batchDur 1
           [validationResult fname
             ("Decoded image exceeds maximum size of 5MB. Size: " ++
               decRepr (b64DecodedLen s) ++ " bytes.") (durAt 0)] }, []) := by
  simp [handleBase64, itemsOf, processAll, processItem, truthyS, hs, hf,
    decodePayload, hraw, hsize]

/-- C5: the claimed HTTP 400 for an oversized decoded payload fails on the
code: a 7 MiB raw-base64 item (decoding to 5.25 MiB > 5 MiB) is answered with
status 200 — the failed Result travels inside the normal 200 response
(src/server.js lines 155-164 and 206-209; 400 is only produced for an empty
array body) — though `success == false` and no remote call is attempted. -/
theorem claim_c5_counterexample :
    (handleBase64 (.single ⟨some oversizedPayload, some "big.png"⟩) 0
        (fun _ => envAllOk) (fun _ => 0) 0).1.status = 200 ∧
    (handleBase64 (.single ⟨some oversizedPayload, some "big.png"⟩) 0
        (fun _ => envAllOk) (fun _ => 0) 0).1.status ≠ 400 ∧
    (handleBase64 (.single ⟨some oversizedPayload, some "big.png"⟩) 0
        (fun _ => envAllOk) (fun _ => 0) 0).2 = [] ∧
    (bodyResults (handleBase64 (.single ⟨some oversizedPayload, some "big.png"⟩) 0
        (fun _ => envAllOk) (fun _ => 0) 0).1.body).map (·.success) = [false] := by
  have hs : oversizedPayload ≠ "" := repA_ne_empty _ (by norm_num)
  have hraw : jsStartsWith oversizedPayload "data:" = false :=
    jsStartsWith_repA _ (by norm_num)
  have hsize : maxImageSize < b64DecodedLen oversizedPayload := by
    unfold oversizedPayload
    rw [b64DecodedLen_repA]
    norm_num [maxImageSize]
  rw [handle_single_oversize oversizedPayload "big.png" 0 (fun _ => envAllOk) (fun _ => 0) 0
    hs (by decide) hraw hsize]
  exact ⟨rfl, by decide, rfl, rfl⟩

/-- C5 (amended): an item whose decoded payload exceeds the 5 MiB ceiling is
answered with HTTP status 200 whose single Result has `success == false` and
the oversize message, and no remote call (auth, upload, export, or delete) is
attempted for it. -/
theorem claim_c5_oversize_local (s fname : String) (nowMs : Nat)
    (envAt : Nat → OcrEnv) (durAt : Nat → Nat) (batchDur : Nat)
    (hs : s ≠ "") (hf : fname ≠ "")
    (hraw : jsStartsWith s "data:" = false)
    (hsize : maxImageSize < b64DecodedLen s) :
    (handleBase64 (.single ⟨some s, some fname⟩) nowMs envAt durAt batchDur).1.status = 200 ∧
    bodyResults (handleBase64 (.single ⟨some s, some fname⟩) nowMs envAt durAt batchDur).1.body =
      [validationResult fname
        ("Decoded image exceeds maximum size of 5MB. Size: " ++
          decRepr (b64DecodedLen s) ++ " bytes.") (durAt 0)] ∧
    (validationResult fname
      ("Decoded image exceeds maximum size of 5MB. Size: " ++
        decRepr (b64DecodedLen s) ++ " bytes.") (durAt 0)).success = false ∧
    (handleBase64 (.single ⟨some s, some fname⟩) nowMs envAt durAt batchDur).2 = [] := by
  rw [handle_single_oversize s fname nowMs envAt durAt batchDur hs hf hraw hsize]
  exact ⟨rfl, rfl, rfl, rfl⟩

/-- C5 witness: the amended behaviour at the concrete 7 MiB payload. -/
theorem claim_c5_oversize_local_witness :
    (handleBase64 (.single ⟨some oversizedPayload, some "pic.png"⟩) 0
        (fun _ => envAllOk) (fun _ => 2) 0).1.status = 200 ∧
    bodyResults (handleBase64 (.single ⟨some oversizedPayload, some "pic.png"⟩) 0
        (fun _ => envAllOk) (fun _ => 2) 0).1.body =
      [validationResult "pic.png"
        ("Decoded image exceeds maximum size of 5MB. Size: " ++
          decRepr (b64DecodedLen oversizedPayload) ++ " bytes.") 2] ∧
    (validationResult "pic.png"
      ("Decoded image exceeds maximum size of 5MB. Size: " ++
        decRepr (b64DecodedLen oversizedPayload) ++ " bytes.") 2).success = false ∧
    (handleBase64 (.single ⟨some oversizedPayload, some "pic.png"⟩) 0
        (fun _ => envAllOk) (fun _ => 2) 0).2 = [] :=
  claim_c5_oversize_local oversizedPayload "pic.png" 0 (fun _ => envAllOk) (fun _ => 2) 0
    (repA_ne_empty _ (by norm_num)) (by decide)
    (jsStartsWith_repA _ (by norm_num))
    (by
      unfold oversizedPayload
      rw [b64DecodedLen_repA]
      norm_num [maxImageSize])

/-- C8: the claim that a malformed credential entry is skipped fails on the
code: with two name-matching files of which only the first parses, the corrupt
second file is still listed (no per-entry validation happens at listing time),
and credential acquisition fails outright when the random pick selects it —
even though one identity parses successfully (selecting index 0 works). -/
theorem claim_c8_counterexample :
    getRandomCredentials badFs 0 = .ok (goodCred, "1") ∧
    getRandomCredentials badFs 1 = .error "Unexpected token x in JSON at position 0" ∧
    getCredentialFiles badFs = .ok
      [{ path := secureFilesDir ++ "credentials1.json", cached := none },
       { path := secureFilesDir ++ "credentials2.json", cached := none }] :=
  ⟨rfl, rfl, rfl⟩

/-- C8 (amended): the credential source performs no per-entry validation and
skips nothing: acquisition resolves to exactly the parse outcome of the
randomly selected entry (so it can fail while other identities are valid);
a wholesale bundle parse failure yields an empty list and the
`No credential files available` failure; and `getCredentialFiles` itself fails
only when no bundle is set and the directory is unreadable or contains zero
name-matching files. -/
theorem claim_c8_no_entry_skipping (fs : FsEnv) (r : Nat) :
    (∀ (files : List CredFile) (hf : getCredentialFiles fs = .ok files)
        (hlt : r % files.length < files.length),
      getRandomCredentials fs r =
        (let sel := files.get ⟨r % files.length, hlt⟩
         match sel.cached with
         | some c => Except.ok (c, credNumberOf sel.path)
         | none =>
           match fs.readFileParse sel.path with
           | .ok c => Except.ok (c, credNumberOf sel.path)
           | .error e => Except.error e)) ∧
    (∀ e, fs.googleCredentialsVar = some (.error e) →
      getRandomCredentials fs r = .error "No credential files available") ∧
    (∀ e, getCredentialFiles fs = .error e →
      fs.googleCredentialsVar = none ∧
      ((∃ e2, fs.secureFilesListing = .error e2) ∨
        ∃ fl, fs.secureFilesListing = .ok fl ∧ (fl.filter isCredFileName).length = 0)) := by
  refine ⟨?_, ?_, ?_⟩
  · intro files hf hlt
    have hne : files.length ≠ 0 := by omega
    unfold getRandomCredentials
    rw [hf]
    dsimp only
    rw [dif_neg hne]
  · intro e he
    unfold getRandomCredentials getCredentialFiles
    rw [he]
    rfl
  · intro e he
    unfold getCredentialFiles at he
    cases hv : fs.googleCredentialsVar with
    | some p =>
      rw [hv] at he
      cases p <;> simp at he
    | none =>
      rw [hv] at he
      refine ⟨rfl, ?_⟩
      cases hl : fs.secureFilesListing with
      | error e2 =>
        exact .inl ⟨e2, rfl⟩
      | ok fl =>
        rw [hl] at he
        by_cases hm : (fl.filter isCredFileName).length = 0
        · exact .inr ⟨fl, rfl, hm⟩
        · refine absurd he ?_
          dsimp only
          rw [if_neg hm]
          simp

/-- C8 witness: selecting the corrupt entry propagates its parse error, a
bundle parse failure gives the no-credentials failure, and an unreadable
directory is the only remaining failure mode of the listing. -/
theorem claim_c8_no_entry_skipping_witness :
    getRandomCredentials badFs 1 = .error "Unexpected token x in JSON at position 0" ∧
    getRandomCredentials bundleBadFs 0 = .error "No credential files available" ∧
    (dirFailFs.googleCredentialsVar = none ∧
      ((∃ e2, dirFailFs.secureFilesListing = .error e2) ∨
        ∃ fl, dirFailFs.secureFilesListing = .ok fl ∧
          (fl.filter isCredFileName).length = 0)) := by
  refine ⟨?_, ?_, ?_⟩
  · exact ((claim_c8_no_entry_skipping badFs 1).1
      [{ path := secureFilesDir ++ "credentials1.json", cached := none },
       { path := secureFilesDir ++ "credentials2.json", cached := none }]
      rfl (by decide)).trans rfl
  · exact (claim_c8_no_entry_skipping bundleBadFs 0).2.1 "Unexpected end of JSON input" rfl
  · exact (claim_c8_no_entry_skipping dirFailFs 0).2.2
      "Failed to read credential files: ENOENT" rfl

end NodeOcr
